import Mathlib

/-!
Shallow embedding of the Workday form-filling content script.

The embedding follows the TypeScript sources:
* field gating and dispatch: entrypoints/content/index.ts
  (shouldProcessInput, processInputElement, analyzePageFields, handleNavigation)
* select handler and its response validation: the select-input module
  (handleSelectInput, validateAIResponse over SelectOption)
* multi-select response validation (validateAIResponse over MultiSelectOption)
* radio-group response validation (validateAIResponse over RadioOption)
* checkbox state update (updateCheckboxState)
* typing simulation: commonUtils (simulateTyping)

DOM elements are reduced to the attributes the script actually inspects; a JS
getAttribute result is an Option String (none models null).  DOM mutations are
made explicit as returned action traces, and JS exceptions as Except values,
caught exactly where the source catches them.
-/

namespace Workday

/-- A labeled DOM input element, reduced to the attributes the content script
reads: aria-haspopup, data-uxi-widget-type, type, tagName, aria-invalid and the
value attribute; checked models the checked property of checkbox inputs. -/
structure InputElement where
  ariaHasPopup : Option String
  widgetType : Option String
  inputType : Option String
  tagName : String
  ariaInvalid : Option String
  valueAttr : String
  checked : Bool
deriving DecidableEq, Repr

/-- shouldProcessInput from index.ts.  The source first returns false on a null
element (modelled by the Option at the call sites), then returns false when
hasError is set and the aria-invalid attribute is not the string true, and
otherwise returns true.  The value attribute is never consulted. -/
def shouldProcessInput (inputElement : InputElement) (hasError : Bool) : Bool :=
  if hasError && !(inputElement.ariaInvalid == some "true") then false
  else true

/-- The falsy test on a trimmed string: labelText.trim() is the empty string
(hence falsy in JS) exactly when every character of labelText is whitespace,
which is the form used here because it evaluates by kernel reduction. -/
def isBlank (s : String) : Bool :=
  s.data.all fun c => c.isWhitespace

/-- The five field handlers the dispatcher can route an element to. -/
inductive FieldHandler where
  | select
  | multiSelect
  | radioGroup
  | checkbox
  | text
deriving DecidableEq, Repr

/-- processInputElement from index.ts: routes an element to a handler by the
source if-else chain; an element matching none of the checks is routed to no
handler (the function falls through and returns). -/
def processInputElement (inputElement : InputElement) : Option FieldHandler :=
  let widgetType := inputElement.widgetType
  let inputType := inputElement.inputType
  let isListbox := inputElement.ariaHasPopup == some "listbox"
  if isListbox then some FieldHandler.select
  else if widgetType == some "selectinput" then some FieldHandler.multiSelect
  else if widgetType == some "radioGroup" then some FieldHandler.radioGroup
  else if inputType == some "checkbox" then some FieldHandler.checkbox
  else if inputType == some "text" || inputElement.tagName == "TEXTAREA" then
    some FieldHandler.text
  else none

/-- The dispatch checks in source order, each paired with the handler it routes
to.  Stated from the spec reading of the priority order, for comparison with
processInputElement. -/
def dispatchPriority : List ((InputElement → Bool) × FieldHandler) :=
  [ (fun e => e.ariaHasPopup == some "listbox", FieldHandler.select),
    (fun e => e.widgetType == some "selectinput", FieldHandler.multiSelect),
    (fun e => e.widgetType == some "radioGroup", FieldHandler.radioGroup),
    (fun e => e.inputType == some "checkbox", FieldHandler.checkbox),
    (fun e => e.inputType == some "text" || e.tagName == "TEXTAREA",
      FieldHandler.text) ]

/-- One label of the page scan in analyzePageFields: its trimmed text and the
element document.getElementById resolved from its for attribute (none when the
attribute is missing or no element has that id). -/
structure LabelPair where
  labelText : String
  input : Option InputElement
deriving DecidableEq, Repr

/-- The elements the analyzePageFields loop hands to processInputElement: for
each label, the resolved element when it exists and shouldProcessInput accepts
it. -/
def dispatchedInputs (labels : List LabelPair) (hasError : Bool) :
    List InputElement :=
  labels.filterMap fun l =>
    match l.input with
    | none => none
    | some e => if shouldProcessInput e hasError then some e else none

end Workday

namespace Workday.SelectInput

/-- An option scraped from the listbox in the select handler: textContent
(trimmed, null possible) and the element id.  A DOM element without an id
attribute yields the empty string, which the source type also allows to be
null. -/
structure SelectOption where
  optionText : Option String
  id : Option String
deriving DecidableEq, Repr

/-- The parsed AI response for a select field: a reason and the selected id. -/
structure AIResponse where
  reason : String
  id : String
deriving DecidableEq, Repr

/-- The valid id list computed inside validateAIResponse: map to the id field,
then filter out nulls. -/
def validOptionIds (options : List SelectOption) : List String :=
  (options.map fun opt => opt.id).filterMap fun i => i

/-- validateAIResponse of the select handler.  The source first throws when
response.id is falsy (the empty string) or not a string (impossible here by
typing), then throws when the id is not a member of the valid id list. -/
def validateAIResponse (response : AIResponse) (options : List SelectOption) :
    Except String Unit :=
  if response.id = "" then
    Except.error "Invalid id in AI response"
  else if (validOptionIds options).contains response.id then
    Except.ok ()
  else
    Except.error "Selected id does not match any available options"

/-- DOM mutations the select handler performs: the dropdown-opening click on
the input element and the click on the chosen option element. -/
inductive DomAction where
  | clickInput
  | clickOption (id : String)
deriving DecidableEq, Repr

/-- The tagged error codes of the select handler (SelectInputError codes; a
JSON parse failure inside selectOptionWithAI is wrapped into
AI_SELECTION_FAILED, as is a validation failure). -/
inductive SelectErrorCode where
  | invalidLabel
  | missingControls
  | listboxNotFound
  | noOptions
  | aiSelectionFailed
  | optionNotFound
deriving DecidableEq, Repr

/-- What the page and the model offer one handleSelectInput call: the label
text, the aria-controls attribute, the listbox element resolved from it with
its scraped options, the outcome of JSON.parse on the model text (none when
the text is not valid JSON), and which element ids document.getElementById
can resolve for the final click. -/
structure SelectEnv where
  labelText : String
  ariaControls : Option String
  listbox : Option (List SelectOption)
  aiJson : Option AIResponse
  optionInDom : String → Bool

/-- handleSelectInput from the select module.  Every failure of the inner
steps is thrown as a SelectInputError, caught by the try/catch of
handleSelectInput and passed to handleError, which only logs it — the
handler itself always returns normally.  The result is the trace of DOM
clicks performed before returning and the error code logged (none on
success). -/
def handleSelectInput (env : SelectEnv) :
    List DomAction × Option SelectErrorCode :=
  if isBlank env.labelText then
    ([], some SelectErrorCode.invalidLabel)
  else
    let acts := [DomAction.clickInput]
    match env.ariaControls with
    | none => (acts, some SelectErrorCode.missingControls)
    | some _ =>
      match env.listbox with
      | none => (acts, some SelectErrorCode.listboxNotFound)
      | some options =>
        if options.isEmpty then (acts, some SelectErrorCode.noOptions)
        else
          match env.aiJson with
          | none => (acts, some SelectErrorCode.aiSelectionFailed)
          | some completion =>
            match validateAIResponse completion options with
            | Except.error _ =>
              (acts, some SelectErrorCode.aiSelectionFailed)
            | Except.ok _ =>
              if env.optionInDom completion.id then
                (acts ++ [DomAction.clickOption completion.id], none)
              else (acts, some SelectErrorCode.optionNotFound)

/-- The page loop of analyzePageFields over consecutive select fields: each
handler call is awaited and, since handleSelectInput catches its own errors,
the loop simply maps over the fields, never aborting early. -/
def runFieldLoop (envs : List SelectEnv) :
    List (List DomAction × Option SelectErrorCode) :=
  envs.map handleSelectInput

/-- A concrete select field whose model answer is not valid JSON: the label
and listbox are fine, but JSON.parse fails on the model text. -/
def malformedJsonPage : SelectEnv :=
  { labelText := "How did you hear about us"
    ariaControls := some "listbox-3"
    listbox := some [SelectOption.mk (some "Yes") (some "opt1"),
      SelectOption.mk (some "No") (some "opt2")]
    aiJson := none
    optionInDom := fun _ => false }

end Workday.SelectInput

namespace Workday.MultiSelect

/-- An option scraped in the multi-select handler: textContent and the id of
its promptOption descendant (null when absent). -/
structure MultiSelectOption where
  optionText : Option String
  optionId : Option String
deriving DecidableEq, Repr

/-- The parsed AI response for a multi-select field. -/
structure AIResponse where
  reason : String
  optionId : String
deriving DecidableEq, Repr

/-- The valid id list computed inside the multi-select validateAIResponse. -/
def validOptionIds (optionsData : List MultiSelectOption) : List String :=
  (optionsData.map fun opt => opt.optionId).filterMap fun i => i

/-- validateAIResponse of the multi-select handler: reject a falsy (empty)
optionId, then reject an optionId that is not a member of the valid id list. -/
def validateAIResponse (response : AIResponse)
    (optionsData : List MultiSelectOption) : Except String Unit :=
  if response.optionId = "" then
    Except.error "Invalid optionId in AI response"
  else if (validOptionIds optionsData).contains response.optionId then
    Except.ok ()
  else
    Except.error "Selected optionId does not match any available options"

end Workday.MultiSelect

namespace Workday.RadioGroup

/-- A radio option as produced by mapToRadioOptions: display text and a
non-null option id (pairs with falsy ids were filtered out earlier). -/
structure RadioOption where
  optionText : String
  optionId : String
deriving DecidableEq, Repr

/-- The parsed AI response for a radio group. -/
structure AIResponse where
  reason : String
  optionId : String
deriving DecidableEq, Repr

/-- The valid id list of the radio-group validateAIResponse (no null filter:
RadioOption ids are already strings). -/
def validOptionIds (options : List RadioOption) : List String :=
  options.map fun opt => opt.optionId

/-- validateAIResponse of the radio-group handler. -/
def validateAIResponse (response : AIResponse) (options : List RadioOption) :
    Except String Unit :=
  if response.optionId = "" then
    Except.error "Invalid optionId in AI response"
  else if (validOptionIds options).contains response.optionId then
    Except.ok ()
  else
    Except.error "Selected optionId does not match any available options"

end Workday.RadioGroup

namespace Workday.Checkbox

/-- The two checkbox states of the checkbox handler. -/
inductive CheckboxState where
  | checked
  | unchecked
deriving DecidableEq, Repr

/-- getCheckboxState: read the checked flag as a CheckboxState. -/
def getCheckboxState (checked : Bool) : CheckboxState :=
  if checked then CheckboxState.checked else CheckboxState.unchecked

/-- updateCheckboxState: click the checkbox only when its checked flag differs
from the desired state.  The result is the new checked flag (a click toggles
it) and the number of click events dispatched. -/
def updateCheckboxState (checked : Bool) (desiredState : CheckboxState) :
    Bool × Nat :=
  let shouldBeChecked := desiredState == CheckboxState.checked
  if checked != shouldBeChecked then (!checked, 1) else (checked, 0)

end Workday.Checkbox

namespace Workday.Typing

/-- The events simulateTyping dispatches on the input element. -/
inductive TypeEvent where
  | keydown (key : Char)
  | input
  | keyup (key : Char)
  | change
deriving DecidableEq, Repr

/-- The default value of the delay parameter of simulateTyping (200 ms). -/
def simulateTypingDelayDefault : Nat := 200

/-- The loop body of simulateTyping: for each character, dispatch keydown,
append the character to the value, dispatch input, dispatch keyup.  Returns
the final value and the dispatched events in order. -/
def typeChars : List Char → String → String × List TypeEvent
  | [], value => (value, [])
  | c :: rest, value =>
    let value := value.push c
    let (finalValue, events) := typeChars rest value
    (finalValue,
      TypeEvent.keydown c :: TypeEvent.input :: TypeEvent.keyup c :: events)

/-- The observable result of one simulateTyping call: final input value, the
dispatched events, and the per-character delay that was used. -/
structure TypingRun where
  value : String
  events : List TypeEvent
  delayMs : Nat
deriving DecidableEq, Repr

/-- simulateTyping from commonUtils: clear the value, type the text character
by character (keydown, value update, input, keyup per character, waiting
delayMs between characters), then dispatch a single change event after the
loop.  The trailing focus/blur/click calls dispatch no events and are not
observable here. -/
def simulateTyping (text : String) (delayMs : Nat) : TypingRun :=
  let (finalValue, events) := typeChars text.toList ""
  { value := finalValue
    events := events ++ [TypeEvent.change]
    delayMs := delayMs }

/-- The three events one character contributes, in dispatch order. -/
def charEvents (c : Char) : List TypeEvent :=
  [TypeEvent.keydown c, TypeEvent.input, TypeEvent.keyup c]

/-- The concatenated per-character events of a character list. -/
def keyEventsOf : List Char → List TypeEvent
  | [] => []
  | c :: rest => charEvents c ++ keyEventsOf rest

end Workday.Typing

namespace Workday.Nav

/-- The module-level mutable state of index.ts the navigation loop touches:
maxRetryCountForCurrentPage and the cached saveButtonDataAutomationId. -/
structure NavState where
  maxRetryCountForCurrentPage : Int
  saveButtonDataAutomationId : Option String
deriving DecidableEq, Repr

/-- What the page offers one handleNavigation invocation: the automation id of
the next button when the (cached or AI-resolved) id matches a button in the
DOM, and the progress bar text read before the click and after the 6000 ms
settle delay. -/
structure NavEnv where
  nextButtonId : Option String
  stepBefore : String
  stepAfter : String
deriving DecidableEq, Repr

/-- How one handleNavigation invocation returns.  The source never throws:
retriesExhausted and buttonNotFound are early returns after a console
warning; retried means the budget was decremented and analyzePageFields true
was invoked on the same page; advanced means the budget was reset to 3 and
analyzePageFields was invoked on the new page. -/
inductive NavOutcome where
  | retriesExhausted
  | buttonNotFound
  | retried
  | advanced
deriving DecidableEq, Repr

/-- handleNavigation from index.ts as a step function on the module state:
return early when the budget is not positive; return early when no next
button is found; otherwise cache the button id, click, compare the progress
text before and after, and either decrement the budget (unchanged text) or
reset it to 3 (changed text). -/
def handleNavigation (s : NavState) (env : NavEnv) : NavOutcome × NavState :=
  if s.maxRetryCountForCurrentPage ≤ 0 then
    (NavOutcome.retriesExhausted, s)
  else
    match env.nextButtonId with
    | none => (NavOutcome.buttonNotFound, s)
    | some buttonId =>
      let s1 : NavState :=
        { s with saveButtonDataAutomationId := some buttonId }
      if env.stepBefore = env.stepAfter then
        (NavOutcome.retried,
          { s1 with
            maxRetryCountForCurrentPage :=
              s1.maxRetryCountForCurrentPage - 1 })
      else
        (NavOutcome.advanced, { s1 with maxRetryCountForCurrentPage := 3 })

/-- The mutual recursion analyzePageFields / handleNavigation, driven by a
script of per-attempt page environments.  On retried or advanced the loop
re-enters analyzePageFields and reaches the next handleNavigation call; on
the early-return outcomes the recursion stops. -/
def runNavigation : NavState → List NavEnv → List NavOutcome × NavState
  | s, [] => ([], s)
  | s, env :: rest =>
    let (outcome, s1) := handleNavigation s env
    match outcome with
    | NavOutcome.retried =>
      let (outcomes, s2) := runNavigation s1 rest
      (NavOutcome.retried :: outcomes, s2)
    | NavOutcome.advanced =>
      let (outcomes, s2) := runNavigation s1 rest
      (NavOutcome.advanced :: outcomes, s2)
    | o => ([o], s1)

/-- A concrete page whose progress text does not change after the click: the
next button resolves but the step stays Step 1 of 4. -/
def stuckPage : NavEnv :=
  { nextButtonId := some "bottom-navigation-next-button"
    stepBefore := "Step 1 of 4"
    stepAfter := "Step 1 of 4" }

/-- A concrete page whose progress text advances from Step 1 of 4 to
Step 2 of 4 after the click. -/
def advancingPage : NavEnv :=
  { nextButtonId := some "bottom-navigation-next-button"
    stepBefore := "Step 1 of 4"
    stepAfter := "Step 2 of 4" }

end Workday.Nav

namespace Workday

/-- On a retry pass the gate accepts exactly the elements whose aria-invalid
attribute is the string true. -/
theorem shouldProcessInput_retry_pass (e : InputElement) :
    shouldProcessInput e true = (e.ariaInvalid == some "true") := by
  cases h : e.ariaInvalid == some "true" <;> simp [shouldProcessInput, h]

/-- C10: field-kind dispatch follows the fixed priority order listbox,
selectinput widget, radioGroup widget, checkbox type, text or textarea: the
dispatcher routes every element exactly as the first matching check of the
ordered check list prescribes, and an element matching no check is routed to
no handler. -/
theorem dispatch_follows_fixed_priority (e : InputElement) :
    processInputElement e =
      (dispatchPriority.find? fun p => p.1 e).map fun p => p.2 := by
  by_cases h1 : e.ariaHasPopup == some "listbox" <;>
    by_cases h2 : e.widgetType == some "selectinput" <;>
      by_cases h3 : e.widgetType == some "radioGroup" <;>
        by_cases h4 : e.inputType == some "checkbox" <;>
          by_cases h5 :
              (e.inputType == some "text" || e.tagName == "TEXTAREA") = true <;>
            simp [processInputElement, dispatchPriority, List.find?,
              h1, h2, h3, h4, h5]

/-- C6: on a retry pass, a labeled element is handed to the dispatcher if and
only if some label resolves to it and its aria-invalid attribute equals the
string true; every other field is skipped on that pass. -/
theorem retry_pass_dispatches_only_invalid
    (labels : List LabelPair) (e : InputElement) :
    e ∈ dispatchedInputs labels true ↔
      (∃ l ∈ labels, l.input = some e) ∧ e.ariaInvalid = some "true" := by
  simp only [dispatchedInputs, List.mem_filterMap]
  constructor
  · rintro ⟨l, hl, hf⟩
    cases hin : l.input with
    | none => rw [hin] at hf; exact absurd hf (by simp)
    | some e2 =>
      rw [hin] at hf
      dsimp only at hf
      rw [shouldProcessInput_retry_pass] at hf
      cases hv : e2.ariaInvalid == some "true" with
      | false => rw [hv] at hf; exact absurd hf (by simp)
      | true =>
        rw [hv] at hf
        simp only [if_true] at hf
        cases hf
        exact ⟨⟨l, hl, hin⟩, by simpa using hv⟩
  · rintro ⟨⟨l, hl, hin⟩, hv⟩
    refine ⟨l, hl, ?_⟩
    rw [hin]
    dsimp only
    rw [shouldProcessInput_retry_pass]
    simp [hv]

/-- C5 (corrected): the classifier never consults the value attribute, and on
a normal pass it accepts every resolvable labeled element, so already-filled
fields are processed exactly like empty ones. -/
theorem value_attribute_never_skips
    (e : InputElement) (v : String) (hasError : Bool) :
    shouldProcessInput e false = true ∧
      shouldProcessInput { e with valueAttr := v } hasError =
        shouldProcessInput e hasError := by
  exact ⟨by simp [shouldProcessInput], rfl⟩

/-- C5 counterexample: a labeled text input whose value attribute is the
non-empty string John is accepted by the gate on a normal pass and routed to
the text handler, contradicting that already-filled inputs are skipped. -/
theorem filled_field_is_not_skipped :
    (InputElement.mk none none (some "text") "INPUT" none "John" false).valueAttr
        ≠ "" ∧
    shouldProcessInput
        (InputElement.mk none none (some "text") "INPUT" none "John" false)
        false = true ∧
    processInputElement
        (InputElement.mk none none (some "text") "INPUT" none "John" false) =
      some FieldHandler.text := by
  exact ⟨by decide, rfl, rfl⟩

end Workday

namespace Workday.Checkbox

/-- C7: when the desired state returned by the resolver equals the current
checked state the checkbox handler dispatches no click and leaves the state
unchanged, and re-applying the same resolution after one application is
always a no-op. -/
theorem checkbox_update_idempotent (checked : Bool)
    (desiredState : CheckboxState) :
    (getCheckboxState checked = desiredState →
      updateCheckboxState checked desiredState = (checked, 0)) ∧
    updateCheckboxState (updateCheckboxState checked desiredState).1
        desiredState =
      ((updateCheckboxState checked desiredState).1, 0) := by
  cases checked <;> cases desiredState <;> exact ⟨by decide, by decide⟩

/-- C7 witness: a checked checkbox with desired state checked is left alone,
and repeating the resolution stays a no-op. -/
theorem checkbox_update_idempotent_witness :
    updateCheckboxState true CheckboxState.checked = (true, 0) ∧
    updateCheckboxState
        (updateCheckboxState true CheckboxState.checked).1
        CheckboxState.checked =
      ((updateCheckboxState true CheckboxState.checked).1, 0) := by
  have h := checkbox_update_idempotent true CheckboxState.checked
  exact ⟨h.1 (by decide), h.2⟩

end Workday.Checkbox

namespace Workday.Validation

/-- C1 (corrected): for each option-based validator, validation succeeds
exactly when the selected identifier is a non-empty member of the identifier
list collected from the DOM; every non-member is rejected with an error, with
no fuzzy matching, but an empty identifier is rejected even when the empty
string is itself a collected identifier. -/
theorem option_validation_strict_membership
    (r : SelectInput.AIResponse) (opts : List SelectInput.SelectOption)
    (rm : MultiSelect.AIResponse) (optsm : List MultiSelect.MultiSelectOption)
    (rr : RadioGroup.AIResponse) (optsr : List RadioGroup.RadioOption) :
    (SelectInput.validateAIResponse r opts = Except.ok () ↔
      r.id ≠ "" ∧ r.id ∈ SelectInput.validOptionIds opts) ∧
    (MultiSelect.validateAIResponse rm optsm = Except.ok () ↔
      rm.optionId ≠ "" ∧ rm.optionId ∈ MultiSelect.validOptionIds optsm) ∧
    (RadioGroup.validateAIResponse rr optsr = Except.ok () ↔
      rr.optionId ≠ "" ∧ rr.optionId ∈ RadioGroup.validOptionIds optsr) := by
  refine ⟨?_, ?_, ?_⟩
  · rw [SelectInput.validateAIResponse]
    split_ifs with h1 h2 <;> simp_all
  · rw [MultiSelect.validateAIResponse]
    split_ifs with h1 h2 <;> simp_all
  · rw [RadioGroup.validateAIResponse]
    split_ifs with h1 h2 <;> simp_all

/-- C1 counterexample: a listbox option element without an id attribute
contributes the empty string to the collected identifier list, and a response
selecting that exact member is still rejected by the select validator. -/
theorem empty_member_id_still_rejected :
    "" ∈ SelectInput.validOptionIds
        [SelectInput.SelectOption.mk (some "Yes") (some "")] ∧
    SelectInput.validateAIResponse
        (SelectInput.AIResponse.mk "matches the Yes option" "")
        [SelectInput.SelectOption.mk (some "Yes") (some "")] =
      Except.error "Invalid id in AI response" := by
  exact ⟨by decide, rfl⟩

end Workday.Validation

namespace Workday.Typing

/-- The typing loop appends exactly the typed characters to the value it
starts from. -/
theorem typeChars_value (cs : List Char) (v : String) :
    (typeChars cs v).1 = String.mk (v.data ++ cs) := by
  induction cs generalizing v with
  | nil =>
    show v = String.mk (v.data ++ [])
    rw [List.append_nil]
  | cons c rest ih =>
    show (typeChars rest (v.push c)).1 = String.mk (v.data ++ (c :: rest))
    rw [ih (v.push c)]
    simp [String.push]

/-- The typing loop dispatches, per character in order, a keydown, an input
and a keyup event, and nothing else. -/
theorem typeChars_events (cs : List Char) (v : String) :
    (typeChars cs v).2 = keyEventsOf cs := by
  induction cs generalizing v with
  | nil => rfl
  | cons c rest ih =>
    show TypeEvent.keydown c :: TypeEvent.input :: TypeEvent.keyup c ::
        (typeChars rest (v.push c)).2 = keyEventsOf (c :: rest)
    rw [ih (v.push c)]
    rfl

/-- C8 (corrected): the typing simulation fills the input character by
character, dispatching keydown, input and keyup events per character with the
requested spacing (200 ms by default), dispatches one single change event
after the final character rather than one per character, and on completion
the input value equals the resolved string. -/
theorem simulateTyping_fills_value (text : String) (delayMs : Nat) :
    (simulateTyping text delayMs).value = text ∧
    (simulateTyping text delayMs).events =
      keyEventsOf text.data ++ [TypeEvent.change] ∧
    (simulateTyping text delayMs).delayMs = delayMs ∧
    simulateTypingDelayDefault = 200 := by
  refine ⟨?_, ?_, rfl, rfl⟩
  · show (typeChars text.toList "").1 = text
    rw [typeChars_value]
    cases text
    rfl
  · show (typeChars text.toList "").2 ++ [TypeEvent.change] =
      keyEventsOf text.data ++ [TypeEvent.change]
    rw [typeChars_events]
    rfl

/-- C8 counterexample: typing the two-character string ab dispatches exactly
one change event, not one per character, so the per-character change claim
fails on any text with at least two characters. -/
theorem change_event_dispatched_once :
    ((simulateTyping "ab" 200).events.count TypeEvent.change) = 1 ∧
    ("ab" : String).length = 2 := by
  exact ⟨by decide, by decide⟩

end Workday.Typing

namespace Workday.Nav

/-- C3: whenever the budget is still positive, the next button is found and
the progress text is identical before and after the click, handleNavigation
decrements the retry counter by exactly one and re-enters analysis of the
same page with the error flag set (the retried outcome) instead of
advancing. -/
theorem unchanged_step_decrements_and_retries
    (s : NavState) (env : NavEnv) (b : String)
    (hpos : 0 < s.maxRetryCountForCurrentPage)
    (hb : env.nextButtonId = some b)
    (hstep : env.stepBefore = env.stepAfter) :
    handleNavigation s env =
      (NavOutcome.retried,
        NavState.mk (s.maxRetryCountForCurrentPage - 1) (some b)) := by
  obtain ⟨budget, cache⟩ := s
  rw [handleNavigation, hb]
  rw [if_neg (by simp at hpos ⊢; omega)]
  simp [hstep]

/-- C3 witness: on the concrete stuck page with a fresh budget of 3, one
navigation attempt yields the retried outcome with budget 2. -/
theorem unchanged_step_decrements_and_retries_witness :
    handleNavigation (NavState.mk 3 none) stuckPage =
      (NavOutcome.retried,
        NavState.mk 2 (some "bottom-navigation-next-button")) := by
  have h := unchanged_step_decrements_and_retries (NavState.mk 3 none)
    stuckPage "bottom-navigation-next-button" (by decide) rfl rfl
  exact h

/-- C4: whenever the budget is still positive, the next button is found and a
step change is detected (the progress text differs before and after the
click), handleNavigation resets the retry budget to exactly 3 before the new
page is analyzed. -/
theorem step_change_resets_budget
    (s : NavState) (env : NavEnv) (b : String)
    (hpos : 0 < s.maxRetryCountForCurrentPage)
    (hb : env.nextButtonId = some b)
    (hstep : env.stepBefore ≠ env.stepAfter) :
    handleNavigation s env =
      (NavOutcome.advanced, NavState.mk 3 (some b)) := by
  obtain ⟨budget, cache⟩ := s
  rw [handleNavigation, hb]
  rw [if_neg (by simp at hpos ⊢; omega)]
  simp [hstep]

/-- C4 witness: on the concrete advancing page with budget 1, the attempt
advances and the budget is reset to 3. -/
theorem step_change_resets_budget_witness :
    handleNavigation (NavState.mk 1 none) advancingPage =
      (NavOutcome.advanced,
        NavState.mk 3 (some "bottom-navigation-next-button")) := by
  exact step_change_resets_budget (NavState.mk 1 none) advancingPage
    "bottom-navigation-next-button" (by decide) rfl (by decide)

/-- C2 (corrected): three consecutive attempts on a page whose progress text
never changes drive the budget from 3 to 0, and the following attempt returns
early after only a console warning: no error value of any kind is produced
(the outcome type of the loop has no error alternative because the source
raises nothing here), and the counter stays at 0 instead of being reset to 3;
it is reset only by a detected step change. -/
theorem exhausted_retries_return_silently
    (env : NavEnv) (b : String) (cache : Option String) (s : NavState)
    (hb : env.nextButtonId = some b)
    (hstep : env.stepBefore = env.stepAfter)
    (hzero : s.maxRetryCountForCurrentPage ≤ 0) :
    runNavigation (NavState.mk 3 cache) [env, env, env, env] =
      ([NavOutcome.retried, NavOutcome.retried, NavOutcome.retried,
        NavOutcome.retriesExhausted],
        NavState.mk 0 (some b)) ∧
    handleNavigation s env = (NavOutcome.retriesExhausted, s) := by
  constructor
  · simp only [runNavigation, handleNavigation, hb, hstep]
    norm_num
  · rw [handleNavigation, if_pos hzero]

/-- C2 witness: the concrete stuck page run four times from a fresh state,
and a fourth call at budget 0 returning the early-exit outcome unchanged. -/
theorem exhausted_retries_return_silently_witness :
    runNavigation (NavState.mk 3 none)
        [stuckPage, stuckPage, stuckPage, stuckPage] =
      ([NavOutcome.retried, NavOutcome.retried, NavOutcome.retried,
        NavOutcome.retriesExhausted],
        NavState.mk 0 (some "bottom-navigation-next-button")) ∧
    handleNavigation (NavState.mk 0 none) stuckPage =
      (NavOutcome.retriesExhausted, NavState.mk 0 none) := by
  exact exhausted_retries_return_silently stuckPage
    "bottom-navigation-next-button" none (NavState.mk 0 none)
    rfl rfl (by decide)

/-- C2 counterexample: after the three unchanged clicks the retry counter is
0, not 3, and the final outcome is the plain warn-and-return exit, so the
counter is not reset for future pages and no MaxRetriesExceeded error
exists to be raised. -/
theorem no_reset_and_no_error_after_exhaustion :
    (runNavigation (NavState.mk 3 none)
        [stuckPage, stuckPage, stuckPage, stuckPage]).2.maxRetryCountForCurrentPage
      = 0 ∧
    (runNavigation (NavState.mk 3 none)
        [stuckPage, stuckPage, stuckPage, stuckPage]).1 =
      [NavOutcome.retried, NavOutcome.retried, NavOutcome.retried,
        NavOutcome.retriesExhausted] := by
  exact ⟨by decide, by decide⟩

end Workday.Nav

namespace Workday.SelectInput

/-- Whenever the select handler logs an error code, the DOM trace it leaves
behind is at most the dropdown-opening click: no option was clicked. -/
theorem handleSelectInput_error_trace (env : SelectEnv) (c : SelectErrorCode)
    (h : (handleSelectInput env).2 = some c) :
    (handleSelectInput env).1 = [] ∨
      (handleSelectInput env).1 = [DomAction.clickInput] := by
  obtain ⟨label, controls, listbox, aiJson, inDom⟩ := env
  by_cases hl : isBlank label
  · left; simp [handleSelectInput, hl]
  · cases controls with
    | none => right; simp [handleSelectInput, hl]
    | some ctl =>
      cases listbox with
      | none => right; simp [handleSelectInput, hl]
      | some opts =>
        by_cases he : opts.isEmpty
        · right; simp [handleSelectInput, hl, he]
        · cases aiJson with
          | none => right; simp [handleSelectInput, hl, he]
          | some completion =>
            cases hv : validateAIResponse completion opts with
            | error msg => right; simp [handleSelectInput, hl, he, hv]
            | ok u =>
              by_cases hd : inDom completion.id
              · exfalso
                simp [handleSelectInput, hl, he, hv, hd] at h
              · right; simp [handleSelectInput, hl, he, hv, hd]

/-- C9: every error of the select pipeline (invalid label, missing listbox
structure, empty options, a model response that is not valid JSON, a failed
validation, a vanished option element) is caught inside the handler, which
returns normally carrying only the logged code; the field is left unfilled
(no option click in the trace), the page loop still visits every field, and a
malformed model response in particular surfaces as the logged
AI_SELECTION_FAILED code. -/
theorem field_errors_logged_not_propagated
    (envs : List SelectEnv) (env : SelectEnv) (c : SelectErrorCode)
    (h : (handleSelectInput env).2 = some c) :
    (∀ oid, DomAction.clickOption oid ∉ (handleSelectInput env).1) ∧
    (runFieldLoop envs).length = envs.length ∧
    (isBlank env.labelText = false →
      env.ariaControls.isSome = true →
      (∃ opts, env.listbox = some opts ∧ opts.isEmpty = false) →
      env.aiJson = none →
      c = SelectErrorCode.aiSelectionFailed) := by
  refine ⟨?_, by simp [runFieldLoop], ?_⟩
  · intro oid
    rcases handleSelectInput_error_trace env c h with ht | ht <;>
      rw [ht] <;> simp
  · intro hl2 hc hlb haij
    obtain ⟨label, controls, listbox, aiJson, inDom⟩ := env
    obtain ⟨opts, hopts, hne⟩ := hlb
    simp only at hl2 hc hopts haij
    subst hopts
    subst haij
    cases controls with
    | none => simp at hc
    | some ctl =>
      simp [handleSelectInput, hl2, hne] at h
      exact h.symm

/-- C9 witness: a field whose model answer is malformed JSON gets the logged
AI_SELECTION_FAILED code, clicks no option, and the loop over two such
fields visits both. -/
theorem field_errors_logged_not_propagated_witness :
    DomAction.clickOption "opt1" ∉ (handleSelectInput malformedJsonPage).1 ∧
    (runFieldLoop [malformedJsonPage, malformedJsonPage]).length =
      [malformedJsonPage, malformedJsonPage].length ∧
    SelectErrorCode.aiSelectionFailed = SelectErrorCode.aiSelectionFailed := by
  have h := field_errors_logged_not_propagated
    [malformedJsonPage, malformedJsonPage] malformedJsonPage
    SelectErrorCode.aiSelectionFailed rfl
  exact ⟨h.1 "opt1", h.2.1, h.2.2 (by decide) rfl ⟨_, rfl, rfl⟩ rfl⟩

end Workday.SelectInput

